import Mathlib

/-!
# Verification of the CrabLang flashcard file parser

Shallow embedding of `src/crablang/file_parser.py` and
`src/crablang/flashcard_manager.py` (class `Flashcard`), together with proofs
settling the specification claims about format detection, content parsing,
fallback line splitting, statistics, validation and guess counters.

Python strings are modelled as Lean `String`s and every Python string
operation used by the source is re-implemented here by structural recursion
over `String.data : List Char`, so that all definitions evaluate by kernel
reduction. Python exceptions are modelled with `Except PyErr`.
-/

/-- Exceptions of the Python code that the embedding can observe:
`ValueError` (e.g. `str.split` with an empty separator), an arbitrary error
raised by the external file/encoding collaborator, and the `IOError` that
`read_file_with_encoding_detection` wraps failures into. -/
inductive PyErr where
  | valueError (msg : String)
  | osError (msg : String)
  | ioError (msg : String)
deriving DecidableEq, Repr

/-- The message text carried by a Python exception (its `str(e)`). -/
def PyErr.message : PyErr → String
  | .valueError m => m
  | .osError m => m
  | .ioError m => m

/-- Python `str.isspace` characters: space, tab, newline, carriage return,
vertical tab, form feed.  Mirrors what Python's `str.strip()` removes. -/
def pyIsSpace (c : Char) : Bool :=
  c == ' ' || c == '\t' || c == '\n' || c == '\r' || c == '\x0b' || c == '\x0c'

/-- Python `line.strip()`: remove leading and trailing whitespace. -/
def pyStrip (s : String) : String :=
  String.mk (((s.data.dropWhile pyIsSpace).reverse.dropWhile pyIsSpace).reverse)

/-- Find the first occurrence of the (non-empty) separator `sep` in the
haystack; return the characters before it and the characters after it.
`none` when `sep` does not occur.  This is the search underlying Python's
`haystack.split(sep, 1)` and `sep in haystack`. -/
def splitFirst (sep : List Char) : List Char → Option (List Char × List Char)
  | [] => none
  | c :: cs =>
    if sep.isPrefixOf (c :: cs) then some ([], (c :: cs).drop sep.length)
    else
      match splitFirst sep cs with
      | some (pre, post) => some (c :: pre, post)
      | none => none

/-- Python `sep in line` (substring containment, for a non-empty `sep`). -/
def containsSub (sep s : String) : Bool :=
  (splitFirst sep.data s.data).isSome

/-- Python `line.split(sep, 1)` for a non-empty separator: two parts when
`sep` occurs, otherwise the single whole line. -/
def pySplit1 (sep line : String) : List String :=
  match splitFirst sep.data line.data with
  | some (pre, post) => [String.mk pre, String.mk post]
  | none => [line]

/-- Python `line.split(sep, 1)` including the `ValueError` that Python raises
on an empty separator. -/
def pySplit1E (sep line : String) : Except PyErr (List String) :=
  if sep == "" then Except.error (PyErr.valueError "empty separator")
  else Except.ok (pySplit1 sep line)

/-- Python `line.split(None, 1)`: skip leading whitespace, take the first
whitespace-free word, consume the separating whitespace run, and return the
remainder when it is non-empty. -/
def pySplitWs1 (s : String) : List String :=
  let cs := s.data.dropWhile pyIsSpace
  if cs.isEmpty then []
  else
    let word := cs.takeWhile (fun c => !pyIsSpace c)
    let rest := (cs.dropWhile (fun c => !pyIsSpace c)).dropWhile pyIsSpace
    if rest.isEmpty then [String.mk word] else [String.mk word, String.mk rest]

/-- Python `content.split("\n")` (specialised to the one-character separator
the source uses): every newline separates, empty input gives `[""]`. -/
def splitOnChar (c : Char) : List Char → List (List Char)
  | [] => [[]]
  | a :: as =>
    if a == c then [] :: splitOnChar c as
    else
      match splitOnChar c as with
      | [] => [[a]]
      | x :: xs => (a :: x) :: xs

/-- `content.split("\n")` as used by `parse_content`. -/
def pySplitLines (s : String) : List String :=
  (splitOnChar '\n' s.data).map String.mk

/-- Python `line.startswith("#")`. -/
def pyStartsWithHash (s : String) : Bool :=
  ['#'].isPrefixOf s.data

/-- `len(parts) == 2` check used throughout `file_parser.py`: the two parts
when the split produced exactly two, else `none`. -/
def split2? (parts : List String) : Option (String × String) :=
  match parts with
  | [a, b] => some (a, b)
  | _ => none

/-- `FileParser._parse_fallback`: sequentially try (1) splitting on a double
space when `"  " in line`, (2) splitting on a colon when `":" in line`,
(3) splitting on the first whitespace run; each stage returns the stripped
parts as soon as its split yields two parts, and `(None, None)` results when
no stage produces two parts. -/
def parse_fallback (line : String) : Option String × Option String :=
  match (if containsSub "  " line then split2? (pySplit1 "  " line) else none) with
  | some (a, b) => (some (pyStrip a), some (pyStrip b))
  | none =>
    match (if containsSub ":" line then split2? (pySplit1 ":" line) else none) with
    | some (a, b) => (some (pyStrip a), some (pyStrip b))
    | none =>
      match split2? (pySplitWs1 line) with
      | some (a, b) => (some (pyStrip a), some (pyStrip b))
      | none => (none, none)

/-- `FileParser._parse_line`: split on the first occurrence of the delimiter
(`line.split(delimiter, 1)`, which raises `ValueError` on an empty
delimiter, propagated to the caller); with two parts return them stripped,
otherwise fall back. -/
def parse_line (delim line : String) :
    Except PyErr (Option String × Option String) :=
  match pySplit1E delim line with
  | Except.error e => Except.error e
  | Except.ok parts =>
    match split2? parts with
    | some (a, b) => Except.ok (some (pyStrip a), some (pyStrip b))
    | none => Except.ok (parse_fallback line)

/-- The spec's "expected two-field shape" for a delimiter: exactly one field
before and one non-empty field after the delimiter, with no stray delimiter
occurrences.  Concretely: the split at the first occurrence yields a
non-empty prefix and a non-empty suffix containing no further occurrence. -/
def specShape (d line : String) : Bool :=
  match splitFirst d.data line.data with
  | some (pre, post) =>
    !pre.isEmpty && !post.isEmpty && (splitFirst d.data post).isNone
  | none => false

/-- Semantics of `re.match(pattern, line)` for the pattern
`"^[^" + delimiter + "]+" + delimiter + "[^" + delimiter + "]+$"` built by
`parse_content` when the delimiter is the tab character.  The pattern is then
the literal regex `^[^\t]+\t[^\t]+$`, a full-line match of: one or more
non-tab characters, a tab, one or more non-tab characters.  A line matches
exactly when splitting it at its first tab yields a non-empty prefix and a
non-empty tab-free suffix, i.e. `specShape "\t"`. -/
def tabMatch (line : String) : Bool :=
  specShape "\t" line

/-- Semantics of `re.match(pattern, line)` for the same construction when the
delimiter is `"|"`.  Because `|` is not escaped, the built pattern
`^[^|]+|[^|]+$` is an alternation of `^[^|]+` and `[^|]+$`.  `re.match`
anchors at position 0: the first branch matches iff the line starts with a
non-`|` character; when the first character is `|` (or the line is empty) the
second branch also fails at position 0.  So the regex matches exactly the
non-empty lines not starting with `|`. -/
def pipeMatch (line : String) : Bool :=
  match line.data with
  | [] => false
  | c :: _ => c != '|'

/-- A delimiter as `parse_content` consumes it: the delimiter string passed
to `str.split`, together with the semantics of `re.match` for the regex that
`parse_content` builds from it by string concatenation (an `Except` value,
since compiling a malformed pattern raises inside the per-line `try`). -/
structure DelimSpec where
  str : String
  reMatch : String → Except PyErr Bool

/-- The tab delimiter (`"\t"`), with the regex semantics `tabMatch`. -/
def tabDelim : DelimSpec :=
  { str := "\t", reMatch := fun line => Except.ok (tabMatch line) }

/-- The pipe delimiter (`"|"`), with the regex semantics `pipeMatch`. -/
def pipeDelim : DelimSpec :=
  { str := "|", reMatch := fun line => Except.ok (pipeMatch line) }

/-- The state `parse_content` accumulates: the insertion-ordered `flashcards`
dict (modelled as an association list), the four `parse_stats` counters, and
the stream of duplicate-term warnings printed (modelled by the warned terms,
in order). -/
structure ParseState where
  flashcards : List (String × String)
  totalLines : Nat
  validPairs : Nat
  skippedLines : Nat
  errors : Nat
  warnings : List String
deriving DecidableEq, Repr

/-- Python `term in flashcards`. -/
def dictContains (d : List (String × String)) (k : String) : Bool :=
  d.any (fun p => p.1 == k)

/-- Python `flashcards[term] = definition`: overwrite in place when the key
exists (keeping its position), append otherwise. -/
def dictInsert (d : List (String × String)) (k v : String) :
    List (String × String) :=
  if dictContains d k then d.map (fun p => if p.1 == k then (k, v) else p)
  else d ++ [(k, v)]

/-- Python `flashcards[term]` lookup. -/
def dictGet (d : List (String × String)) (k : String) : Option String :=
  (d.find? (fun p => p.1 == k)).map (fun p => p.2)

/-- The block of `parse_content` that records a well-formed pair: warn when
the term is already present, store the pair (overwriting), and increment
`valid_pairs`. -/
def recordPair (st : ParseState) (t df : String) : ParseState :=
  let st1 :=
    if dictContains st.flashcards t then
      { st with warnings := st.warnings ++ [t] }
    else st
  { st1 with
    flashcards := dictInsert st1.flashcards t df
    validPairs := st1.validPairs + 1 }

/-- The body of `parse_content`'s per-line `try` block: evaluate the regex
match; on a match extract the pair with `_parse_line` and either record it
(both parts truthy, i.e. present and non-empty) or count the line skipped;
on no match count an error (the "malformed line" report). -/
def lineAttempt (d : DelimSpec) (st : ParseState) (line : String) :
    Except PyErr ParseState :=
  match d.reMatch line with
  | Except.error e => Except.error e
  | Except.ok m =>
    if m then
      match parse_line d.str line with
      | Except.error e => Except.error e
      | Except.ok (some t, some df) =>
        if t != "" && df != "" then Except.ok (recordPair st t df)
        else Except.ok { st with skippedLines := st.skippedLines + 1 }
      | Except.ok _ =>
        Except.ok { st with skippedLines := st.skippedLines + 1 }
    else
      Except.ok { st with errors := st.errors + 1 }

/-- One iteration of `parse_content`'s loop: strip the line; count blank and
comment lines as skipped; otherwise run the `try` block, converting any
raised exception into an `errors` increment (the `except Exception` arm). -/
def processLine (d : DelimSpec) (st : ParseState) (rawLine : String) :
    ParseState :=
  let line := pyStrip rawLine
  if line == "" || pyStartsWithHash line then
    { st with skippedLines := st.skippedLines + 1 }
  else
    match lineAttempt d st line with
    | Except.ok st2 => st2
    | Except.error _ => { st with errors := st.errors + 1 }

/-- `FileParser.parse_content`: reset the statistics, record the total line
count, and fold the per-line processing over `content.split("\n")`. -/
def parse_content (d : DelimSpec) (content : String) : ParseState :=
  let lines := pySplitLines content
  let st0 : ParseState :=
    { flashcards := []
      totalLines := lines.length
      validPairs := 0
      skippedLines := 0
      errors := 0
      warnings := [] }
  lines.foldl (processLine d) st0

/-- The body of `validate_flashcards`' loop for one `(term, definition)`
pair: append an issue for each of the four independently-checked rules that
fails (Python `not term.strip()` is `pyStrip term == ""`, `len` is the
character count). -/
def validateStep (issues : List (String × String)) (td : String × String) :
    List (String × String) :=
  let issues :=
    if pyStrip td.1 == "" then issues ++ [(td.1, "Empty term")] else issues
  let issues :=
    if pyStrip td.2 == "" then issues ++ [(td.1, "Empty definition")]
    else issues
  let issues :=
    if td.1.length > 100 then issues ++ [(td.1, "Term too long")]
    else issues
  let issues :=
    if td.2.length > 500 then issues ++ [(td.1, "Definition too long")]
    else issues
  issues

/-- `FileParser.validate_flashcards`: run the four checks over each pair, in
dict order, accumulating the issue list. -/
def validate_flashcards (fc : List (String × String)) :
    List (String × String) :=
  fc.foldl validateStep []

/-- The issues `validate_flashcards` generates for one `(term, definition)`
pair, in the order the four rules are checked. -/
def pairIssues (t df : String) : List (String × String) :=
  (if pyStrip t == "" then [(t, "Empty term")] else []) ++
  (if pyStrip df == "" then [(t, "Empty definition")] else []) ++
  (if t.length > 100 then [(t, "Term too long")] else []) ++
  (if df.length > 500 then [(t, "Definition too long")] else [])

/-- `FileParser.read_file_with_encoding_detection`.  The filesystem, the
`chardet` heuristic and the replacing byte decode are the external
collaborator, modelled as a function `fs` from path to either the decoded
text with its encoding label, or the exception the read raises; the source
wraps any such exception into an `IOError` naming the path and the cause. -/
def read_file_with_encoding_detection
    (fs : String → Except PyErr (String × String)) (path : String) :
    Except PyErr (String × String) :=
  match fs path with
  | Except.ok r => Except.ok r
  | Except.error e =>
    Except.error
      (PyErr.ioError ("Failed to read file " ++ path ++ ": " ++ e.message))

/-- Modelled from the spec: `detect_file_format` and `get_supported_formats`
are exercised by the repository's tests but absent from
`src/crablang/file_parser.py`; this is the spec's ordered candidate list —
"Supported formats and their delimiters: tab (tsv), comma (csv), semicolon
(semicolon), double-hash `##` (double_hash), pipe (pipe)", whose order is the
tie-breaking precedence tab > comma > semicolon > double_hash > pipe. -/
def supported_formats : List (String × String) :=
  [("tsv", "\t"), ("csv", ","), ("semicolon", ";"),
   ("double_hash", "##"), ("pipe", "|")]

/-- Modelled from the spec: a sampled line "splits into exactly two non-empty
trimmed parts" under a candidate delimiter. -/
def splitsInTwo (d line : String) : Bool :=
  match splitFirst d.data line.data with
  | some (pre, post) =>
    pyStrip (String.mk pre) != "" && pyStrip (String.mk post) != ""
  | none => false

/-- Modelled from the spec: the count, for one candidate delimiter, of
sampled lines that split into exactly two non-empty trimmed parts. -/
def delimScore (d : String) (lines : List String) : Nat :=
  (lines.filter (splitsInTwo d)).length

/-- One step of the best-candidate selection: a later candidate replaces the
current best only with a strictly higher score (so ties go to the earlier
candidate of the precedence order), and a scoreless prefix stays `none`. -/
def pickStep (best : Option (String × Nat)) (p : String × Nat) :
    Option (String × Nat) :=
  match best with
  | none => if 0 < p.2 then some p else none
  | some b => if b.2 < p.2 then some p else some b

/-- Choose the first candidate achieving the maximal positive score; no
positive score at all yields `none` (detection failure). -/
def pickBest (scored : List (String × Nat)) : Option (String × Nat) :=
  scored.foldl pickStep none

/-- Modelled from the spec: `detect_file_format` — score every supported
candidate delimiter over the sampled lines (all lines of the content, a
legitimate instance of "a prefix of lines") and pick the best. -/
def detect_file_format (content : String) : Option String :=
  let lines := pySplitLines content
  (pickBest (supported_formats.map (fun p => (p.1, delimScore p.2 lines)))).map
    (fun p => p.1)

/-- Modelled from the spec: `get_supported_formats`, the queryable list of
supported format names. -/
def get_supported_formats : List String :=
  supported_formats.map (fun p => p.1)

/-- `Flashcard` from `flashcard_manager.py`: a term, a definition, and the
two guess counters, both initialised to zero by `__init__`. -/
structure Flashcard where
  term : String
  definition : String
  correctGuesses : Nat
  incorrectGuesses : Nat
deriving DecidableEq, Repr

/-- `Flashcard.__init__(term, definition)`. -/
def Flashcard.init (term df : String) : Flashcard :=
  ⟨term, df, 0, 0⟩

/-- `Flashcard.is_correct_guess`. -/
def Flashcard.is_correct_guess (fc : Flashcard) (df : String) : Bool :=
  fc.definition == df

/-- `Flashcard.correct_guess`: `self._correct_guesses += 1`. -/
def Flashcard.correct_guess (fc : Flashcard) : Flashcard :=
  { fc with correctGuesses := fc.correctGuesses + 1 }

/-- `Flashcard.incorrect_guess`: `self._incorrect_guesses += 1`. -/
def Flashcard.incorrect_guess (fc : Flashcard) : Flashcard :=
  { fc with incorrectGuesses := fc.incorrectGuesses + 1 }

/-- Property `Flashcard.get_correct_guesses_number`. -/
def Flashcard.get_correct_guesses_number (fc : Flashcard) : Nat :=
  fc.correctGuesses

/-- Property `Flashcard.get_incorrect_guesses_number`. -/
def Flashcard.get_incorrect_guesses_number (fc : Flashcard) : Nat :=
  fc.incorrectGuesses

/-- Property `Flashcard.get_guesses_number`:
`self._incorrect_guesses + self._correct_guesses`. -/
def Flashcard.get_guesses_number (fc : Flashcard) : Nat :=
  fc.incorrectGuesses + fc.correctGuesses

/-- One call in a sequence of guess recordings. -/
inductive GuessOp where
  | correct
  | incorrect
deriving DecidableEq, Repr

/-- Harness for the claim's "every sequence of correct_guess and
incorrect_guess calls": apply the calls in order. -/
def applyOps (ops : List GuessOp) (fc : Flashcard) : Flashcard :=
  ops.foldl
    (fun f op =>
      match op with
      | GuessOp.correct => f.correct_guess
      | GuessOp.incorrect => f.incorrect_guess)
    fc

/-! ## Helper definitions for the claim statements -/

/-- The sum of the three per-line outcome counters. -/
def outcomeSum (st : ParseState) : Nat :=
  st.validPairs + st.skippedLines + st.errors

/-- The stripped two-part result a fallback stage produces from its split
(`(None, None)` when the split did not yield exactly two parts). -/
def stripPair : List String → Option String × Option String
  | [a, b] => (some (pyStrip a), some (pyStrip b))
  | _ => (none, none)

/-- A line that the parser skips as blank or comment: its stripped form is
empty or starts with `#`. -/
def isBlankOrComment (line : String) : Bool :=
  pyStrip line == "" || pyStartsWithHash (pyStrip line)

/-- The claim's `blank_or_comment_count` over the lines of a content. -/
def blankOrCommentCount (content : String) : Nat :=
  ((pySplitLines content).filter isBlankOrComment).length

/-- The claim's per-line hypothesis for the tab delimiter: the line is blank
or a comment, or its stripped form matches `term<tab>definition` exactly
once (the expected two-field shape). -/
def goodTabLine (line : String) : Bool :=
  isBlankOrComment line || specShape "\t" (pyStrip line)

/-! ## Helper lemmas -/

theorem recordPair_effects (st : ParseState) (t df : String) :
    (recordPair st t df).validPairs = st.validPairs + 1 ∧
    (recordPair st t df).skippedLines = st.skippedLines ∧
    (recordPair st t df).errors = st.errors ∧
    (recordPair st t df).totalLines = st.totalLines := by
  unfold recordPair
  dsimp only
  split <;> simp

theorem lineAttempt_ok_outcome (d : DelimSpec) (st : ParseState)
    (line : String) (st2 : ParseState)
    (h : lineAttempt d st line = Except.ok st2) :
    outcomeSum st2 = outcomeSum st + 1 ∧ st2.totalLines = st.totalLines := by
  unfold lineAttempt at h
  cases hm : d.reMatch line with
  | error e => rw [hm] at h; cases h
  | ok m =>
    rw [hm] at h
    cases m with
    | false =>
      simp only [Bool.false_eq_true, if_false] at h
      injection h with h2
      subst h2
      simp [outcomeSum]
      omega
    | true =>
      simp only [if_true] at h
      cases hp : parse_line d.str line with
      | error e => rw [hp] at h; cases h
      | ok pr =>
        rw [hp] at h
        obtain ⟨t?, df?⟩ := pr
        cases t? with
        | none =>
          simp only [] at h
          injection h with h2
          subst h2
          simp [outcomeSum]
          omega
        | some t =>
          cases df? with
          | none =>
            simp only [] at h
            injection h with h2
            subst h2
            simp [outcomeSum]
            omega
          | some df =>
            simp only [] at h
            by_cases hne : (t != "" && df != "") = true
            · rw [if_pos hne] at h
              injection h with h2
              subst h2
              obtain ⟨e1, e2, e3, e4⟩ := recordPair_effects st t df
              unfold outcomeSum
              omega
            · rw [if_neg hne] at h
              injection h with h2
              subst h2
              simp [outcomeSum]
              omega

theorem processLine_outcome (d : DelimSpec) (st : ParseState) (line : String) :
    outcomeSum (processLine d st line) = outcomeSum st + 1 ∧
    (processLine d st line).totalLines = st.totalLines := by
  unfold processLine
  dsimp only
  split
  · unfold outcomeSum
    simp
    omega
  · split
    · exact lineAttempt_ok_outcome d st (pyStrip line) _ ‹_›
    · unfold outcomeSum
      simp
      omega

theorem foldl_processLine_outcome (d : DelimSpec) (lines : List String) :
    ∀ st : ParseState,
      outcomeSum (lines.foldl (processLine d) st) =
        outcomeSum st + lines.length ∧
      (lines.foldl (processLine d) st).totalLines = st.totalLines := by
  induction lines with
  | nil => intro st; simp
  | cons l ls ih =>
    intro st
    simp only [List.foldl_cons, List.length_cons]
    have h1 := processLine_outcome d st l
    have h2 := ih (processLine d st l)
    exact ⟨by omega, by omega⟩

theorem parse_content_conservation (d : DelimSpec) (content : String) :
    outcomeSum (parse_content d content) = (pySplitLines content).length ∧
    (parse_content d content).totalLines = (pySplitLines content).length := by
  unfold parse_content
  dsimp only
  have h := foldl_processLine_outcome d (pySplitLines content)
    { flashcards := []
      totalLines := (pySplitLines content).length
      validPairs := 0
      skippedLines := 0
      errors := 0
      warnings := [] }
  unfold outcomeSum at h ⊢
  simp at h
  omega

theorem validateStep_eq (issues : List (String × String))
    (td : String × String) :
    validateStep issues td = issues ++ pairIssues td.1 td.2 := by
  unfold validateStep pairIssues
  dsimp only
  split <;> split <;> split <;> split <;> simp

theorem foldl_validateStep (fc : List (String × String)) :
    ∀ acc : List (String × String),
      fc.foldl validateStep acc =
        acc ++ fc.flatMap (fun p => pairIssues p.1 p.2) := by
  induction fc with
  | nil => intro acc; simp
  | cons td rest ih =>
    intro acc
    simp only [List.foldl_cons, List.flatMap_cons]
    rw [ih (validateStep acc td), validateStep_eq]
    simp

theorem validate_eq_flatMap (fc : List (String × String)) :
    validate_flashcards fc = fc.flatMap (fun p => pairIssues p.1 p.2) := by
  unfold validate_flashcards
  rw [foldl_validateStep]
  simp

theorem pairIssues_length_le (t df : String) :
    (pairIssues t df).length ≤ 4 := by
  unfold pairIssues
  split <;> split <;> split <;> split <;> simp

theorem dictGet_append_self (fc : List (String × String)) (t df : String)
    (h : dictContains fc t = false) :
    dictGet (fc ++ [(t, df)]) t = some df := by
  induction fc with
  | nil => simp [dictGet]
  | cons p rest ih =>
    simp only [dictContains, List.any_cons, Bool.or_eq_false_iff] at h
    have hih := ih h.2
    unfold dictGet at hih ⊢
    rw [List.cons_append, List.find?_cons_of_neg]
    · exact hih
    · simp [h.1]

theorem dictGet_map_overwrite (fc : List (String × String)) (t df : String)
    (h : dictContains fc t = true) :
    dictGet (fc.map (fun p => if p.1 == t then (t, df) else p)) t =
      some df := by
  induction fc with
  | nil => simp [dictContains] at h
  | cons p rest ih =>
    by_cases hp : (p.1 == t) = true
    · unfold dictGet
      rw [List.map_cons, if_pos hp, List.find?_cons_of_pos]
      · simp
      · simp
    · have hr : dictContains rest t = true := by
        simp only [dictContains, List.any_cons, hp, Bool.false_or] at h
        exact h
      have hih := ih hr
      unfold dictGet at hih ⊢
      rw [List.map_cons, if_neg hp, List.find?_cons_of_neg]
      · exact hih
      · simp [hp]

theorem dictGet_dictInsert (fc : List (String × String)) (t df : String) :
    dictGet (dictInsert fc t df) t = some df := by
  unfold dictInsert
  by_cases h : dictContains fc t = true
  · rw [if_pos h]
    exact dictGet_map_overwrite fc t df h
  · rw [if_neg h]
    exact dictGet_append_self fc t df (by simpa using h)

theorem pickStep_none (p : String × Nat) :
    pickStep none p = if 0 < p.2 then some p else none := rfl

theorem pickStep_some (b p : String × Nat) :
    pickStep (some b) p = if b.2 < p.2 then some p else some b := rfl

theorem pickStep_foldl_spec (l : List (String × Nat)) :
    ∀ (acc : Option (String × Nat)) (r : String × Nat),
      (∀ b, acc = some b → 0 < b.2) →
      l.foldl pickStep acc = some r →
      0 < r.2 ∧ (acc = some r ∨ r ∈ l) ∧ (∀ q ∈ l, q.2 ≤ r.2) ∧
        (∀ b, acc = some b → b.2 ≤ r.2) := by
  induction l with
  | nil =>
    intro acc r hacc h
    simp only [List.foldl_nil] at h
    refine ⟨hacc r h, Or.inl h, by simp, fun b hb => ?_⟩
    rw [h] at hb
    injection hb with hb
    rw [hb]
  | cons p l ih =>
    intro acc r hacc h
    simp only [List.foldl_cons] at h
    have hacc' : ∀ b, pickStep acc p = some b → 0 < b.2 := by
      intro b hb
      cases acc with
      | none =>
        rw [pickStep_none] at hb
        by_cases hpos : 0 < p.2
        · rw [if_pos hpos] at hb
          injection hb with hb
          rw [← hb]
          exact hpos
        · rw [if_neg hpos] at hb
          cases hb
      | some a =>
        rw [pickStep_some] at hb
        by_cases hlt : a.2 < p.2
        · rw [if_pos hlt] at hb
          injection hb with hb
          rw [← hb]
          omega
        · rw [if_neg hlt] at hb
          injection hb with hb
          rw [← hb]
          exact hacc a rfl
    obtain ⟨h1, h2, h3, h4⟩ := ih (pickStep acc p) r hacc' h
    refine ⟨h1, ?_, ?_, ?_⟩
    · rcases h2 with h2 | h2
      · cases acc with
        | none =>
          rw [pickStep_none] at h2
          by_cases hpos : 0 < p.2
          · rw [if_pos hpos] at h2
            injection h2 with h2
            exact Or.inr (by rw [← h2]; exact List.mem_cons_self p l)
          · rw [if_neg hpos] at h2
            cases h2
        | some a =>
          rw [pickStep_some] at h2
          by_cases hlt : a.2 < p.2
          · rw [if_pos hlt] at h2
            injection h2 with h2
            exact Or.inr (by rw [← h2]; exact List.mem_cons_self p l)
          · rw [if_neg hlt] at h2
            injection h2 with h2
            exact Or.inl (by rw [h2])
      · exact Or.inr (List.mem_cons_of_mem p h2)
    · intro q hq
      rcases List.mem_cons.mp hq with hq | hq
      · subst hq
        cases acc with
        | none =>
          by_cases hpos : 0 < q.2
          · exact h4 q (by rw [pickStep_none, if_pos hpos])
          · omega
        | some a =>
          by_cases hlt : a.2 < q.2
          · exact h4 q (by rw [pickStep_some, if_pos hlt])
          · have ha := h4 a (by rw [pickStep_some, if_neg hlt])
            omega
      · exact h3 q hq
    · intro b hb
      cases acc with
      | none => cases hb
      | some a =>
        injection hb with hb
        subst hb
        by_cases hlt : a.2 < p.2
        · have hp2 := h4 p (by rw [pickStep_some, if_pos hlt])
          omega
        · exact h4 a (by rw [pickStep_some, if_neg hlt])

theorem match_split2_stripPair (parts : List String) :
    (match split2? parts with
     | some (a, b) => (some (pyStrip a), some (pyStrip b))
     | none => ((none : Option String), (none : Option String))) =
      stripPair parts := by
  match parts with
  | [] => rfl
  | [a] => rfl
  | [a, b] => rfl
  | a :: b :: c :: rest => rfl

theorem parse_fallback_doublespace (line : String)
    (h : containsSub "  " line = true) :
    parse_fallback line = stripPair (pySplit1 "  " line) := by
  have hps : ∃ pre post, pySplit1 "  " line =
      [String.mk pre, String.mk post] := by
    unfold containsSub at h
    cases hsf : splitFirst "  ".data line.data with
    | none => rw [hsf] at h; simp at h
    | some pr => exact ⟨pr.1, pr.2, by unfold pySplit1; rw [hsf]⟩
  obtain ⟨pre, post, hps⟩ := hps
  unfold parse_fallback
  rw [if_pos h, hps]
  rfl

theorem parse_fallback_colon (line : String)
    (h1 : containsSub "  " line = false)
    (h2 : containsSub ":" line = true) :
    parse_fallback line = stripPair (pySplit1 ":" line) := by
  have hps : ∃ pre post, pySplit1 ":" line =
      [String.mk pre, String.mk post] := by
    unfold containsSub at h2
    cases hsf : splitFirst ":".data line.data with
    | none => rw [hsf] at h2; simp at h2
    | some pr => exact ⟨pr.1, pr.2, by unfold pySplit1; rw [hsf]⟩
  obtain ⟨pre, post, hps⟩ := hps
  unfold parse_fallback
  rw [if_neg (by simp [h1]), if_pos h2, hps]
  rfl

theorem parse_fallback_whitespace (line : String)
    (h1 : containsSub "  " line = false)
    (h2 : containsSub ":" line = false) :
    parse_fallback line = stripPair (pySplitWs1 line) := by
  unfold parse_fallback
  rw [if_neg (by simp [h1]), if_neg (by simp [h2])]
  exact match_split2_stripPair (pySplitWs1 line)

theorem processLine_tab_nomatch (st : ParseState) (line : String)
    (hs : pyStrip line = line) (hne : (line == "") = false)
    (hc : pyStartsWithHash line = false)
    (hm : specShape "\t" line = false) :
    processLine tabDelim st line = { st with errors := st.errors + 1 } := by
  have hla : lineAttempt tabDelim st line =
      Except.ok { st with errors := st.errors + 1 } := by
    unfold lineAttempt tabDelim
    dsimp only
    rw [show tabMatch line = false from hm]
    simp
  unfold processLine
  rw [hs]
  simp only [hne, hc, Bool.or_self, if_false]
  rw [hla]
  rfl

theorem processLine_fallback_none (d : DelimSpec) (st : ParseState)
    (line : String)
    (hs : pyStrip line = line) (hne : (line == "") = false)
    (hc : pyStartsWithHash line = false)
    (hm : d.reMatch line = Except.ok true)
    (hp : parse_line d.str line = Except.ok (none, none)) :
    processLine d st line =
      { st with skippedLines := st.skippedLines + 1 } := by
  have hla : lineAttempt d st line =
      Except.ok { st with skippedLines := st.skippedLines + 1 } := by
    unfold lineAttempt
    rw [hm]
    dsimp only
    rw [if_pos rfl, hp]
  unfold processLine
  rw [hs]
  simp only [hne, hc, Bool.or_self, if_false]
  rw [hla]
  rfl

theorem recordPair_dup (st : ParseState) (t df : String)
    (h : dictContains st.flashcards t = true) :
    recordPair st t df =
      { st with flashcards := dictInsert st.flashcards t df,
                warnings := st.warnings ++ [t],
                validPairs := st.validPairs + 1 } := by
  unfold recordPair
  rw [if_pos h]

theorem applyOps_cons (op : GuessOp) (ops : List GuessOp) (fc : Flashcard) :
    applyOps (op :: ops) fc =
      applyOps ops
        (match op with
         | GuessOp.correct => fc.correct_guess
         | GuessOp.incorrect => fc.incorrect_guess) := rfl

theorem applyOps_frame (ops : List GuessOp) :
    ∀ fc : Flashcard,
      (applyOps ops fc).term = fc.term ∧
      (applyOps ops fc).definition = fc.definition := by
  induction ops with
  | nil => intro fc; exact ⟨rfl, rfl⟩
  | cons op rest ih =>
    intro fc
    rw [applyOps_cons]
    cases op with
    | correct => exact ih fc.correct_guess
    | incorrect => exact ih fc.incorrect_guess

/-! ## Claim theorems -/

/-- C9: for every delimiter and content, the statistics of `parse_content`
satisfy `valid_pairs + skipped_lines + errors = total_lines`, where
`total_lines` is the number of newline-separated lines of the content, and
each processed line increments exactly one of the three outcome counters
(their sum rises by exactly one per line). -/
theorem C9_stats_invariant (d : DelimSpec) (content : String) :
    (parse_content d content).validPairs +
        (parse_content d content).skippedLines +
        (parse_content d content).errors =
      (parse_content d content).totalLines ∧
    (parse_content d content).totalLines = (pySplitLines content).length ∧
    ∀ (st : ParseState) (line : String),
      outcomeSum (processLine d st line) = outcomeSum st + 1 := by
  obtain ⟨h1, h2⟩ := parse_content_conservation d content
  unfold outcomeSum at h1
  exact ⟨by omega, h2, fun st line => (processLine_outcome d st line).1⟩

/-- C10: `correct_guess` increments exactly the correct-guess counter and
leaves the incorrect-guess counter, term and definition unchanged
(symmetrically for `incorrect_guess`), and after any sequence of guess
calls `get_guesses_number` equals `get_correct_guesses_number +
get_incorrect_guesses_number` while term and definition are unchanged. -/
theorem C10_flashcard_counters :
    (∀ fc : Flashcard,
      fc.correct_guess.correctGuesses = fc.correctGuesses + 1 ∧
      fc.correct_guess.incorrectGuesses = fc.incorrectGuesses ∧
      fc.correct_guess.term = fc.term ∧
      fc.correct_guess.definition = fc.definition ∧
      fc.incorrect_guess.incorrectGuesses = fc.incorrectGuesses + 1 ∧
      fc.incorrect_guess.correctGuesses = fc.correctGuesses ∧
      fc.incorrect_guess.term = fc.term ∧
      fc.incorrect_guess.definition = fc.definition) ∧
    (∀ (ops : List GuessOp) (fc : Flashcard),
      (applyOps ops fc).get_guesses_number =
        (applyOps ops fc).get_correct_guesses_number +
          (applyOps ops fc).get_incorrect_guesses_number ∧
      (applyOps ops fc).term = fc.term ∧
      (applyOps ops fc).definition = fc.definition) := by
  constructor
  · intro fc
    exact ⟨rfl, rfl, rfl, rfl, rfl, rfl, rfl, rfl⟩
  · intro ops fc
    refine ⟨?_, (applyOps_frame ops fc).1, (applyOps_frame ops fc).2⟩
    unfold Flashcard.get_guesses_number Flashcard.get_correct_guesses_number
      Flashcard.get_incorrect_guesses_number
    omega

set_option maxRecDepth 40000 in
/-- C6: the validator checks each pair independently against the four rules
(empty term, empty definition, term over 100 characters, definition over 500
characters), and on the claim's example dict it returns exactly the three
issues empty term, empty definition and term too long. -/
theorem C6_validator_rules :
    (∀ fc : List (String × String),
      validate_flashcards fc = fc.flatMap (fun p => pairIssues p.1 p.2)) ∧
    validate_flashcards
        [("apple", "red fruit"), ("", "empty term"), ("term", ""),
         (String.mk (List.replicate 101 'x'), "too long term")] =
      [("", "Empty term"), ("term", "Empty definition"),
       (String.mk (List.replicate 101 'x'), "Term too long")] ∧
    (validate_flashcards
        [("apple", "red fruit"), ("", "empty term"), ("term", ""),
         (String.mk (List.replicate 101 'x'), "too long term")]).length =
      3 :=
  ⟨validate_eq_flatMap, by decide, by decide⟩

set_option maxRecDepth 1000000 in
/-- C7 counterexample: a term of 101 spaces with a definition of 501 spaces
is a single pair producing four validation issues (empty term, term too
long, empty definition, definition too long), so a single term can produce
more than two issues. -/
theorem C7_counterexample_four_issues :
    (validate_flashcards
        [(String.mk (List.replicate 101 ' '),
          String.mk (List.replicate 501 ' '))]).length = 4 ∧
    ¬(validate_flashcards
        [(String.mk (List.replicate 101 ' '),
          String.mk (List.replicate 501 ' '))]).length ≤ 2 :=
  ⟨by decide, by decide⟩

/-- C7 amended: a single term/definition pair passed to the validator
produces at most four validation issues (one per independent rule; the
bound two is wrong because a whitespace-only term longer than 100 characters
is both empty and too long, and likewise for the definition). -/
theorem C7_issue_bound (t df : String) :
    (validate_flashcards [(t, df)]).length ≤ 4 := by
  rw [validate_eq_flatMap]
  simpa using pairIssues_length_le t df

/-- C5: only the file-read path raises a hard failure — a failing read is
surfaced as an `IOError` wrapping the underlying cause's message — while in
`parse_content` any exception raised while processing a line is absorbed
into the `errors` counter and parsing proceeds (the per-line `except` arm),
so `parse_content` itself returns normally for every content and
delimiter. -/
theorem C5_error_propagation :
    (∀ (fs : String → Except PyErr (String × String)) (path : String)
        (e : PyErr),
      fs path = Except.error e →
      read_file_with_encoding_detection fs path =
        Except.error (PyErr.ioError
          ("Failed to read file " ++ path ++ ": " ++ e.message))) ∧
    (∀ (d : DelimSpec) (st : ParseState) (line : String) (e : PyErr),
      (pyStrip line == "") = false →
      pyStartsWithHash (pyStrip line) = false →
      lineAttempt d st (pyStrip line) = Except.error e →
      processLine d st line = { st with errors := st.errors + 1 }) := by
  constructor
  · intro fs path e h
    unfold read_file_with_encoding_detection
    rw [h]
  · intro d st line e h1 h2 h3
    unfold processLine
    simp only [h1, h2, Bool.or_self, if_false]
    rw [h3]
    rfl

/-- C5 witness: a read on a missing path yields the wrapped `IOError`, and a
per-line exception (here the `ValueError` from splitting on an empty
delimiter) is absorbed as one `errors` increment. -/
theorem C5_error_propagation_witness :
    read_file_with_encoding_detection
        (fun _ => Except.error (PyErr.osError "No such file or directory"))
        "nonexistent.txt" =
      Except.error (PyErr.ioError
        "Failed to read file nonexistent.txt: No such file or directory") ∧
    processLine ⟨"", fun _ => Except.ok true⟩ ⟨[], 1, 0, 0, 0, []⟩ "abc" =
      ⟨[], 1, 0, 0, 1, []⟩ :=
  ⟨C5_error_propagation.1
      (fun _ => Except.error (PyErr.osError "No such file or directory"))
      "nonexistent.txt" (PyErr.osError "No such file or directory") rfl,
    C5_error_propagation.2 ⟨"", fun _ => Except.ok true⟩ ⟨[], 1, 0, 0, 0, []⟩
      "abc" (PyErr.valueError "empty separator") (by decide) (by decide)
      rfl⟩

/-- C8: recording a pair whose term is already present overwrites the stored
definition, emits a duplicate warning (not an error) and still increments
`valid_pairs`; concretely the duplicate example yields
`{"apple": "second"}` with `valid_pairs = 2`, one warning and no errors. -/
theorem C8_duplicate_overwrite :
    (∀ (st : ParseState) (t df : String),
      dictContains st.flashcards t = true →
      recordPair st t df =
        { st with flashcards := dictInsert st.flashcards t df,
                  warnings := st.warnings ++ [t],
                  validPairs := st.validPairs + 1 } ∧
      dictGet (dictInsert st.flashcards t df) t = some df) ∧
    ((parse_content tabDelim "apple\tfirst\napple\tsecond").flashcards =
        [("apple", "second")] ∧
      (parse_content tabDelim "apple\tfirst\napple\tsecond").validPairs =
        2 ∧
      (parse_content tabDelim "apple\tfirst\napple\tsecond").warnings =
        ["apple"] ∧
      (parse_content tabDelim "apple\tfirst\napple\tsecond").errors = 0) := by
  constructor
  · intro st t df h
    exact ⟨recordPair_dup st t df h, dictGet_dictInsert st.flashcards t df⟩
  · exact ⟨by decide, by decide, by decide, by decide⟩

/-- C8 witness: recording `("apple", "second")` over a state already holding
`("apple", "first")` overwrites the entry, appends one warning and
increments `valid_pairs`. -/
theorem C8_duplicate_overwrite_witness :
    recordPair ⟨[("apple", "first")], 2, 1, 0, 0, []⟩ "apple" "second" =
      ⟨[("apple", "second")], 2, 2, 0, 0, ["apple"]⟩ ∧
    dictGet (dictInsert [("apple", "first")] "apple" "second") "apple" =
      some "second" :=
  ⟨((C8_duplicate_overwrite.1 ⟨[("apple", "first")], 2, 1, 0, 0, []⟩
      "apple" "second" (by decide)).1).trans (by decide),
    (C8_duplicate_overwrite.1 ⟨[("apple", "first")], 2, 1, 0, 0, []⟩
      "apple" "second" (by decide)).2⟩

/-- C2 counterexample: with the pipe delimiter, the line `malformed_line`
is non-blank, not a comment, and does not match the expected two-field
shape for `|`, yet `parse_content` counts it as skipped, not as an error —
the unescaped `|` turns the built regex into an alternation that matches
the line, and the fallback's degenerate result is recorded as a skip.  This
refutes the claim's "for every delimiter string (including the pipe
delimiter)". -/
theorem C2_counterexample_pipe :
    pyStrip "malformed_line" = "malformed_line" ∧
    ("malformed_line" == "") = false ∧
    pyStartsWithHash "malformed_line" = false ∧
    specShape "|" "malformed_line" = false ∧
    (parse_content pipeDelim "malformed_line").errors = 0 ∧
    (parse_content pipeDelim "malformed_line").skippedLines = 1 ∧
    (parse_content pipeDelim "malformed_line").flashcards = [] ∧
    ¬(parse_content pipeDelim "malformed_line").errors = 1 := by
  refine ⟨by decide, by decide, by decide, by decide, by decide, by decide,
    by decide, by decide⟩

/-- C2 amended: for the tab delimiter (whose characters are regex-literal,
so the built pattern really is the two-field shape check), every stripped,
non-blank, non-comment line that does not match the expected two-field
shape is counted as an error, adds no pair, and parsing continues;
concretely the tab example yields exactly 2 pairs, `errors = 1` and
`skipped_lines = 0`.  For delimiters containing regex metacharacters (the
pipe), the unescaped concatenation changes the check and such lines can be
skipped instead. -/
theorem C2_malformed_error :
    (∀ (st : ParseState) (line : String),
      pyStrip line = line → (line == "") = false →
      pyStartsWithHash line = false → specShape "\t" line = false →
      processLine tabDelim st line =
        { st with errors := st.errors + 1 }) ∧
    ((parse_content tabDelim
        "apple\tred fruit\nmalformed_line\nbanana\tyellow fruit").flashcards =
      [("apple", "red fruit"), ("banana", "yellow fruit")] ∧
     (parse_content tabDelim
        "apple\tred fruit\nmalformed_line\nbanana\tyellow fruit").errors =
      1 ∧
     (parse_content tabDelim
        "apple\tred fruit\nmalformed_line\nbanana\tyellow fruit").skippedLines =
      0 ∧
     (parse_content tabDelim
        "apple\tred fruit\nmalformed_line\nbanana\tyellow fruit").validPairs =
      2) := by
  constructor
  · exact fun st line hs hne hc hm =>
      processLine_tab_nomatch st line hs hne hc hm
  · exact ⟨by decide, by decide, by decide, by decide⟩

/-- C2 witness: the amended rule applied to the concrete malformed line
under the tab delimiter: it is counted as exactly one error. -/
theorem C2_malformed_error_witness :
    processLine tabDelim ⟨[], 3, 0, 0, 0, []⟩ "malformed_line" =
      ⟨[], 3, 0, 0, 1, []⟩ :=
  C2_malformed_error.1 ⟨[], 3, 0, 0, 0, []⟩ "malformed_line" (by decide)
    (by decide) (by decide) (by decide)

/-- C3 counterexample: `"# Fruits\napple\tred fruit"` satisfies the claim's
hypothesis (every non-comment, non-blank line matches the tab shape exactly
once) with `N = 2` lines and one blank-or-comment line, yet
`valid_pairs + skipped_lines + errors = 2 = N`, not
`N - blank_or_comment_count = 1` — blank and comment lines are themselves
counted in `skipped_lines`. -/
theorem C3_counterexample_comment :
    ((pySplitLines "# Fruits\napple\tred fruit").all goodTabLine) = true ∧
    (parse_content tabDelim "# Fruits\napple\tred fruit").totalLines = 2 ∧
    blankOrCommentCount "# Fruits\napple\tred fruit" = 1 ∧
    (parse_content tabDelim "# Fruits\napple\tred fruit").validPairs +
        (parse_content tabDelim "# Fruits\napple\tred fruit").skippedLines +
        (parse_content tabDelim "# Fruits\napple\tred fruit").errors = 2 ∧
    ¬((parse_content tabDelim "# Fruits\napple\tred fruit").validPairs +
          (parse_content tabDelim "# Fruits\napple\tred fruit").skippedLines +
          (parse_content tabDelim "# Fruits\napple\tred fruit").errors =
        2 - blankOrCommentCount "# Fruits\napple\tred fruit") := by
  refine ⟨by decide, by decide, by decide, by decide, by decide⟩

/-- C3 amended: for content whose every line is blank, a comment, or
matches `term<tab>definition` exactly once, `total_lines = N` and
`valid_pairs + skipped_lines + errors = N` (blank and comment lines are
counted inside `skipped_lines`, so the sum is `N`, not
`N - blank_or_comment_count`); concretely the two-line tab example parses
to the expected dict with `valid_pairs = 2`. -/
theorem C3_stats_conservation :
    (∀ content : String,
      (pySplitLines content).all goodTabLine = true →
      (parse_content tabDelim content).totalLines =
          (pySplitLines content).length ∧
      (parse_content tabDelim content).validPairs +
          (parse_content tabDelim content).skippedLines +
          (parse_content tabDelim content).errors =
        (pySplitLines content).length) ∧
    ((parse_content tabDelim
        "apple\tred fruit\nbanana\tyellow fruit").flashcards =
      [("apple", "red fruit"), ("banana", "yellow fruit")] ∧
     (parse_content tabDelim
        "apple\tred fruit\nbanana\tyellow fruit").validPairs = 2) := by
  constructor
  · intro content _
    obtain ⟨h1, h2⟩ := parse_content_conservation tabDelim content
    unfold outcomeSum at h1
    exact ⟨h2, h1⟩
  · exact ⟨by decide, by decide⟩

/-- C3 witness: the amended statistics law applied to the claim's concrete
two-line content. -/
theorem C3_stats_conservation_witness :
    ((pySplitLines "apple\tred fruit\nbanana\tyellow fruit").all
        goodTabLine) = true ∧
    ((parse_content tabDelim
        "apple\tred fruit\nbanana\tyellow fruit").totalLines =
      (pySplitLines "apple\tred fruit\nbanana\tyellow fruit").length ∧
     (parse_content tabDelim
          "apple\tred fruit\nbanana\tyellow fruit").validPairs +
        (parse_content tabDelim
            "apple\tred fruit\nbanana\tyellow fruit").skippedLines +
        (parse_content tabDelim
            "apple\tred fruit\nbanana\tyellow fruit").errors =
      (pySplitLines "apple\tred fruit\nbanana\tyellow fruit").length) :=
  ⟨by decide,
    C3_stats_conservation.1 "apple\tred fruit\nbanana\tyellow fruit"
      (by decide)⟩

/-- C4 counterexample: the colon fallback on `":a b"` wins as soon as a
colon occurs, even though its first part trims to empty — the later
whitespace fallback, which would give the two non-empty parts
`(":a", "b")`, is never tried, so under the pipe delimiter the line yields
no pair; and when every fallback fails (`"word"`), the line is counted as
skipped, not reported as a malformed-line error. -/
theorem C4_counterexample_fallback :
    parse_fallback ":a b" = (some "", some "a b") ∧
    parse_fallback ":a b" ≠ (some ":a", some "b") ∧
    stripPair (pySplitWs1 ":a b") = (some ":a", some "b") ∧
    (parse_content pipeDelim ":a b").flashcards = [] ∧
    (parse_content pipeDelim ":a b").skippedLines = 1 ∧
    parse_fallback "word" = (none, none) ∧
    (parse_content pipeDelim "word").errors = 0 ∧
    (parse_content pipeDelim "word").skippedLines = 1 := by
  refine ⟨by decide, by decide, by decide, by decide, by decide, by decide,
    by decide, by decide⟩

/-- C4 amended: the fallback strategies are tried in the fixed order
double-space run, then colon, then first whitespace run, but a stage is
selected as soon as its separator occurs in the line (its stripped parts
are returned even when one of them is empty, with no further stage tried);
and when a matched line's primary split and every fallback fail, the line
yields no pair and is counted as skipped — not reported as an error. -/
theorem C4_fallback_order :
    (∀ line : String, containsSub "  " line = true →
      parse_fallback line = stripPair (pySplit1 "  " line)) ∧
    (∀ line : String, containsSub "  " line = false →
      containsSub ":" line = true →
      parse_fallback line = stripPair (pySplit1 ":" line)) ∧
    (∀ line : String, containsSub "  " line = false →
      containsSub ":" line = false →
      parse_fallback line = stripPair (pySplitWs1 line)) ∧
    (∀ (d : DelimSpec) (st : ParseState) (line : String),
      pyStrip line = line → (line == "") = false →
      pyStartsWithHash line = false →
      d.reMatch line = Except.ok true →
      parse_line d.str line = Except.ok (none, none) →
      processLine d st line =
        { st with skippedLines := st.skippedLines + 1 }) :=
  ⟨parse_fallback_doublespace, parse_fallback_colon,
    parse_fallback_whitespace,
    fun d st line hs hne hc hm hp =>
      processLine_fallback_none d st line hs hne hc hm hp⟩

/-- C4 witness: the double-space stage applied to `"a  b"`, and the
all-fallbacks-fail line `"word"` under the pipe delimiter counted as
skipped. -/
theorem C4_fallback_order_witness :
    parse_fallback "a  b" = stripPair (pySplit1 "  " "a  b") ∧
    processLine pipeDelim ⟨[], 1, 0, 0, 0, []⟩ "word" =
      ⟨[], 1, 0, 1, 0, []⟩ :=
  ⟨C4_fallback_order.1 "a  b" (by decide),
    C4_fallback_order.2.2.2 pipeDelim ⟨[], 1, 0, 0, 0, []⟩ "word"
      (by decide) (by decide) (by decide) rfl rfl⟩

/-- C1 (spec-modelled: `detect_file_format` and `get_supported_formats` are
exercised by the tests but absent from `src/`): detection counts, for each
candidate delimiter, the sampled lines splitting into exactly two non-empty
trimmed parts and picks the highest count with ties broken by the fixed
precedence order; the comma example detects as `csv`, the double-hash
example as `double_hash`, and the queryable format-name list is
`tsv, csv, semicolon, double_hash, pipe`. -/
theorem C1_format_detection :
    detect_file_format "apple,red fruit\nbanana,yellow fruit" =
      some "csv" ∧
    detect_file_format "apple##red fruit\nbanana##yellow fruit" =
      some "double_hash" ∧
    get_supported_formats =
      ["tsv", "csv", "semicolon", "double_hash", "pipe"] ∧
    (∀ (content : String) (name : String),
      detect_file_format content = some name →
      ∃ d : String, (name, d) ∈ supported_formats ∧
        0 < delimScore d (pySplitLines content) ∧
        ∀ p ∈ supported_formats,
          delimScore p.2 (pySplitLines content) ≤
            delimScore d (pySplitLines content)) := by
  refine ⟨by decide, by decide, by decide, ?_⟩
  intro content name h
  have h2 : Option.map (fun p : String × Nat => p.1)
      (pickBest (supported_formats.map
        (fun p => (p.1, delimScore p.2 (pySplitLines content))))) =
      some name := h
  clear h
  cases hpb : pickBest (supported_formats.map
      (fun p => (p.1, delimScore p.2 (pySplitLines content)))) with
  | none =>
    rw [hpb] at h2
    cases h2
  | some r =>
    rw [hpb] at h2
    rw [show Option.map (fun p : String × Nat => p.1) (some r) =
        some r.1 from rfl] at h2
    injection h2 with h
    obtain ⟨hpos, hmem, hall, _⟩ :=
      pickStep_foldl_spec _ none r (fun b hb => by cases hb) hpb
    rcases hmem with hmem | hmem
    · cases hmem
    · obtain ⟨p, hp, hr⟩ := List.mem_map.mp hmem
      refine ⟨p.2, ?_, ?_, ?_⟩
      · have hn : name = p.1 := by rw [← h, ← hr]
        rw [hn]
        exact hp
      · rw [← hr] at hpos
        exact hpos
      · intro q hq
        have hqm : (q.1, delimScore q.2 (pySplitLines content)) ∈
            supported_formats.map
              (fun p => (p.1, delimScore p.2 (pySplitLines content))) :=
          List.mem_map_of_mem _ hq
        have hle := hall _ hqm
        rw [← hr] at hle
        exact hle

/-- C1 witness: the general argmax property instantiated at the comma
example, with the detection hypothesis discharged by evaluation. -/
theorem C1_format_detection_witness :
    ∃ d : String, ("csv", d) ∈ supported_formats ∧
      0 < delimScore d
          (pySplitLines "apple,red fruit\nbanana,yellow fruit") ∧
      ∀ p ∈ supported_formats,
        delimScore p.2
            (pySplitLines "apple,red fruit\nbanana,yellow fruit") ≤
          delimScore d
            (pySplitLines "apple,red fruit\nbanana,yellow fruit") :=
  C1_format_detection.2.2.2 "apple,red fruit\nbanana,yellow fruit" "csv"
    (by decide)
